import Mathlib

set_option maxRecDepth 4000

/-!
Verification of the SVG render service core logic (`app/main.py`):
length parsing with unit conversion, intrinsic-dimension extraction,
scale resolution, bounded fetching, and age-based pruning.

Python floats are modelled as rationals (`ℚ`), byte strings as
`List Nat`, and the external HTTP / object-store effects as explicit
input data fed to the translated control flow.
-/

namespace SvgRender

/-! ### Character and string helpers (Python `str.strip`, `str.lower`, `\s`) -/

/-- Python whitespace characters recognised by `\s`, `str.strip` and
`bytes.strip` (ASCII range). -/
def pySpace (c : Char) : Bool :=
  c = ' ' || c = '\t' || c = '\n' || c = '\r' || c = '\x0b' || c = '\x0c'

/-- Python `str.strip()` on a character list. -/
def pyStrip (s : List Char) : List Char :=
  ((s.dropWhile pySpace).reverse.dropWhile pySpace).reverse

/-- Python `str.lower()` (ASCII letters). -/
def pyLower (s : List Char) : List Char :=
  s.map Char.toLower

/-- Numeric value of a digit string (most significant first). -/
def digitsVal (ds : List Char) : ℕ :=
  ds.foldl (fun a c => 10 * a + (c.toNat - 48)) 0

/-! ### The leading-number regex `_LENGTH_RE = ^\s*([-+]?\d*\.?\d+)`

`lengthMatch` describes the captured group of a successful match as sign,
integer digits, fractional digits, and the characters after `match.end()`;
`floatOfToken` is Python `float(...)` applied to the group, as an exact rational.
The greedy-with-backtracking semantics of the pattern reduce to: skip
whitespace, take an optional sign, then the longest prefix of the form
`digits` or `digits "." digits⁺` or `"." digits⁺`; a trailing dot not
followed by a digit is left out of the match, and a sign not followed by
a matchable number gives no match at all. -/

structure LengthToken where
  neg : Bool
  intPart : ℕ
  fracPart : ℕ
  fracLen : ℕ
  rest : List Char
  deriving DecidableEq, Repr

def lengthMatch (s : List Char) : Option LengthToken :=
  let s1 := s.dropWhile pySpace
  let neg : Bool := s1.head? = some '-'
  let s2 := if s1.head? = some '-' ∨ s1.head? = some '+' then s1.tail else s1
  let ip := s2.takeWhile Char.isDigit
  let s3 := s2.dropWhile Char.isDigit
  match s3 with
  | '.' :: t =>
    let fp := t.takeWhile Char.isDigit
    if fp = [] then
      if ip = [] then none
      else some ⟨neg, digitsVal ip, 0, 0, s3⟩
    else
      some ⟨neg, digitsVal ip, digitsVal fp, fp.length, t.dropWhile Char.isDigit⟩
  | _ =>
    if ip = [] then none else some ⟨neg, digitsVal ip, 0, 0, s3⟩

/-- `float(match.group(1))`, exactly. -/
def floatOfToken (t : LengthToken) : ℚ :=
  (if t.neg then -1 else 1) * ((t.intPart : ℚ) + (t.fracPart : ℚ) / (10 : ℚ) ^ t.fracLen)

/-- The fixed unit table `_SVG_UNIT_TO_PX` of `app/main.py` (the keys are
already lower-case there; lookup is on the normalised unit). -/
def _SVG_UNIT_TO_PX (u : List Char) : Option ℚ :=
  if u = [] then some 1
  else if u = ['p', 'x'] then some 1
  else if u = ['p', 't'] then some ((96 : ℚ) / 72)
  else if u = ['p', 'c'] then some 16
  else if u = ['m', 'm'] then some ((96 : ℚ) / (254 / 10))
  else if u = ['c', 'm'] then some ((96 : ℚ) / (254 / 100))
  else if u = ['i', 'n'] then some 96
  else none

/-- The normalised unit string `raw_value[match.end():].strip().lower()`
of `_parse_svg_length`; `[]` when the regex does not match. -/
def svgUnitOf (s : String) : List Char :=
  match lengthMatch s.data with
  | none => []
  | some t => pyLower (pyStrip t.rest)

/-- The numeric value captured by `_LENGTH_RE` on `s` (`0` when there is
no match). -/
def lengthValueOf (s : String) : ℚ :=
  match lengthMatch s.data with
  | none => 0
  | some t => floatOfToken t

/-- `_parse_svg_length` of `app/main.py`.  `none` models a missing
attribute (Python `None`); the empty string is falsy like `None`. -/
def _parse_svg_length (raw : Option String) : ℚ :=
  match raw with
  | none => 0
  | some s =>
    if s.data = [] then 0
    else
      match lengthMatch s.data with
      | none => 0
      | some t =>
        let u := pyLower (pyStrip t.rest)
        if u.getLast? = some '%' then 0
        else
          match _SVG_UNIT_TO_PX u with
          | some factor => floatOfToken t * factor
          | none => floatOfToken t

/-! ### `_extract_svg_dimensions`

The parsed document (`cairosvg.parser.Tree`) is modelled by the three
attribute lookups the function performs. -/

structure SvgDoc where
  width : Option String
  height : Option String
  viewBox : Option String
  deriving DecidableEq

/-- A separator for `re.split(r"[\s,]+", ...)`. -/
def wsCommaSep (c : Char) : Bool :=
  pySpace c || c = ','

/-- Splitting on runs of whitespace/commas, keeping only non-empty parts
(the list comprehension `[part for part in re.split(...) if part]`). -/
def splitTokensAux : List Char → List Char → List (List Char)
  | [], acc => if acc = [] then [] else [acc.reverse]
  | c :: t, acc =>
    if wsCommaSep c then
      if acc = [] then splitTokensAux t [] else acc.reverse :: splitTokensAux t []
    else splitTokensAux t (c :: acc)

def splitTokens (s : List Char) : List (List Char) :=
  splitTokensAux s []

/-- `_extract_svg_dimensions` of `app/main.py`. -/
def _extract_svg_dimensions (doc : SvgDoc) : ℚ × ℚ :=
  let width := _parse_svg_length doc.width
  let height := _parse_svg_length doc.height
  match doc.viewBox with
  | none => (width, height)
  | some vb =>
    if vb.data = [] then (width, height)
    else
      match splitTokens (pyStrip vb.data) with
      | [_, _, vw, vh] =>
        ((if width ≤ 0 then _parse_svg_length (some (String.mk vw)) else width),
         (if height ≤ 0 then _parse_svg_length (some (String.mk vh)) else height))
      | _ => (width, height)

/-! ### `_compute_scale`

The Python one-argument `round` on a float rounds half to even; the three
`if` statements are translated as the successive scale values
`scaleAfterMin`, `scaleAfterMaxW`, `scaleAfterMaxH`.  The bounds
`min_output_width`, `max_output_width`, `max_output_height` are the
integer settings. -/

/-- Round half to even (Python `round`). -/
def roundHalfEven (x : ℚ) : ℤ :=
  if x - (⌊x⌋ : ℚ) < 1 / 2 then ⌊x⌋
  else if 1 / 2 < x - (⌊x⌋ : ℚ) then ⌊x⌋ + 1
  else if ⌊x⌋ % 2 = 0 then ⌊x⌋ else ⌊x⌋ + 1

/-- Scale after `if width < settings.min_output_width: scale = max(scale, ...)`,
starting from `scale = 1.0`. -/
def scaleAfterMin (minW : ℤ) (w : ℚ) : ℚ :=
  if w < (minW : ℚ) then max 1 ((minW : ℚ) / w) else 1

/-- Scale after `if width * scale > settings.max_output_width: ...`. -/
def scaleAfterMaxW (minW maxW : ℤ) (w : ℚ) : ℚ :=
  if w * scaleAfterMin minW w > (maxW : ℚ) then (maxW : ℚ) / w
  else scaleAfterMin minW w

/-- Scale after `if height * scale > settings.max_output_height: ...`. -/
def scaleAfterMaxH (minW maxW maxH : ℤ) (w h : ℚ) : ℚ :=
  if h * scaleAfterMaxW minW maxW w > (maxH : ℚ) then (maxH : ℚ) / h
  else scaleAfterMaxW minW maxW w

/-- `_compute_scale` of `app/main.py`. -/
def _compute_scale (minW maxW maxH : ℤ) (width height : ℚ) : ℤ × ℤ :=
  let w := if width ≤ 0 ∨ height ≤ 0 then (minW : ℚ) else width
  let h := if width ≤ 0 ∨ height ≤ 0 then (minW : ℚ) else height
  let scale := scaleAfterMaxH minW maxW maxH w h
  (max 1 (roundHalfEven (w * scale)), max 1 (roundHalfEven (h * scale)))

/-- Step 1 of `_compute_scale` with its division guarded: the division
site yields `none` unless its divisor is strictly positive. -/
def checkedAfterMin (minW : ℤ) (w : ℚ) : Option ℚ :=
  if w < (minW : ℚ) then (if 0 < w then some (max 1 ((minW : ℚ) / w)) else none)
  else some 1

/-- Step 2 of `_compute_scale` with its division guarded. -/
def checkedAfterMaxW (minW maxW : ℤ) (w : ℚ) : Option ℚ :=
  match checkedAfterMin minW w with
  | none => none
  | some s1 =>
    if w * s1 > (maxW : ℚ) then (if 0 < w then some ((maxW : ℚ) / w) else none)
    else some s1

/-- Step 3 of `_compute_scale` with its division guarded. -/
def checkedAfterMaxH (minW maxW maxH : ℤ) (w h : ℚ) : Option ℚ :=
  match checkedAfterMaxW minW maxW w with
  | none => none
  | some s2 =>
    if h * s2 > (maxH : ℚ) then (if 0 < h then some ((maxH : ℚ) / h) else none)
    else some s2

/-- `_compute_scale` with every division guarded: a `some` result means
every division that executed had a strictly positive divisor. -/
def computeScaleChecked (minW maxW maxH : ℤ) (width height : ℚ) : Option (ℤ × ℤ) :=
  let w := if width ≤ 0 ∨ height ≤ 0 then (minW : ℚ) else width
  let h := if width ≤ 0 ∨ height ≤ 0 then (minW : ℚ) else height
  match checkedAfterMaxH minW maxW maxH w h with
  | none => none
  | some s3 => some (max 1 (roundHalfEven (w * s3)), max 1 (roundHalfEven (h * s3)))

/-! ### `_fetch_svg`

Bytes are `List Nat`; the HTTP exchange is the input datum.  The
exception classes that `/render` distinguishes (`ValueError` versus
`GoogleAPIError` / `OSError`) are the constructors of `Err`;
`requests.RequestException` (transport errors and `raise_for_status`)
is caught inside `_fetch_svg` and re-raised as `ValueError`. -/

inductive Err where
  | valueError (msg : String)
  | apiError (msg : String)
  | osError (msg : String)
  deriving DecidableEq

/-- An ASCII whitespace byte, as stripped by `bytes.strip()`. -/
def wsByte (b : ℕ) : Bool :=
  b = 9 || b = 10 || b = 11 || b = 12 || b = 13 || b = 32

/-- `bytes.strip()`. -/
def bytesStrip (bs : List ℕ) : List ℕ :=
  ((bs.dropWhile wsByte).reverse.dropWhile wsByte).reverse

/-- One HTTP exchange: either the transport raised
`requests.RequestException` (possibly mid-stream), or a response with a
status, an optional declared `Content-Length`, and the streamed chunks. -/
inductive FetchInput where
  | transportError (msg : String)
  | response (status : ℕ) (contentLength : Option ℕ) (chunks : List (List ℕ))
  deriving DecidableEq

/-- The streaming loop of `_fetch_svg`: skip falsy (empty) chunks, append,
and fail as soon as the buffer exceeds `max_svg_bytes`. -/
def streamChunks (maxBytes : ℕ) : List (List ℕ) → List ℕ → Except Err (List ℕ)
  | [], buffer => Except.ok buffer
  | chunk :: rest, buffer =>
    if chunk = [] then streamChunks maxBytes rest buffer
    else
      let buffer2 := buffer ++ chunk
      if buffer2.length > maxBytes then
        Except.error (Err.valueError "SVG exceeds maximum allowed size.")
      else streamChunks maxBytes rest buffer2

/-- The declared-size check `content_length and int(content_length) >
settings.max_svg_bytes` (a missing header is falsy). -/
def contentLengthExceeds (maxBytes : ℕ) (contentLength : Option ℕ) : Bool :=
  match contentLength with
  | some n => maxBytes < n
  | none => false

/-- `_fetch_svg` of `app/main.py`.  `raise_for_status` raises for any
4xx/5xx status. -/
def _fetch_svg (maxBytes : ℕ) (inp : FetchInput) : Except Err (List ℕ) :=
  match inp with
  | .transportError msg =>
    Except.error (Err.valueError ("Unable to download SVG: " ++ msg))
  | .response status contentLength chunks =>
    if 400 ≤ status then
      Except.error (Err.valueError "Unable to download SVG: HTTP error")
    else if contentLengthExceeds maxBytes contentLength then
      Except.error (Err.valueError "SVG exceeds maximum allowed size.")
    else
      match streamChunks maxBytes chunks [] with
      | Except.error e => Except.error e
      | Except.ok svgBytes =>
        if bytesStrip svgBytes = [] then
          Except.error (Err.valueError "SVG document is empty.")
        else Except.ok svgBytes

/-! ### `_prune_old_files`

The object-store listing is the input datum: a sequence of listed blobs,
possibly interrupted by a `GoogleAPIError` (from the listing iterator or
from an individual `blob.delete()`).  The `try`/`except` of the source
catches that error and returns the count accumulated so far. -/

structure Blob where
  name : String
  timeCreated : Option ℤ
  deriving DecidableEq

/-- Whether the loop body deletes this blob: a known creation timestamp
strictly before the cutoff. -/
def shouldPrune (cutoff : ℤ) (b : Blob) : Bool :=
  match b.timeCreated with
  | none => false
  | some t => t < cutoff

/-- One event seen by the pruning loop: a listed blob (whose deletion may
raise), or a listing fault. -/
inductive PruneEvent where
  | item (b : Blob) (deleteFails : Bool)
  | listFault (msg : String)
  deriving DecidableEq

/-- The `for` loop of `_prune_old_files` under its `try`/`except`:
`deleted` is the count accumulated so far, returned as soon as a
`GoogleAPIError` occurs. -/
def pruneLoop (cutoff : ℤ) : List PruneEvent → ℕ → ℕ
  | [], deleted => deleted
  | PruneEvent.listFault _ :: _, deleted => deleted
  | PruneEvent.item b deleteFails :: rest, deleted =>
    match b.timeCreated with
    | none => pruneLoop cutoff rest deleted
    | some t =>
      if t < cutoff then
        if deleteFails then deleted
        else pruneLoop cutoff rest (deleted + 1)
      else pruneLoop cutoff rest deleted

/-- `_prune_old_files` of `app/main.py`: `cutoff = now - timedelta(seconds
= settings.prune_after_seconds)`, timestamps in seconds as integers. -/
def _prune_old_files (now pruneAfter : ℤ) (events : List PruneEvent) : ℕ :=
  pruneLoop (now - pruneAfter) events 0

/-! ### The `/render` route

`render_svg` below is the status/prune-count skeleton of the route: the
authorization and URL checks, the `except ValueError` → 400 and
`except (GoogleAPIError, OSError)` → 500 arms, and on success the 200
response carrying `pruned_files`.  The pipeline outcome (fetch → convert
→ upload) and the pruning-time listing are the input data. -/

def render_svg (authorized urlValid : Bool) (pipeline : Except Err (ℤ × ℤ))
    (now pruneAfter : ℤ) (events : List PruneEvent) : ℕ × Option ℕ :=
  if authorized = false then (401, none)
  else if urlValid = false then (400, none)
  else
    match pipeline with
    | Except.error (Err.valueError _) => (400, none)
    | Except.error (Err.apiError _) => (500, none)
    | Except.error (Err.osError _) => (500, none)
    | Except.ok _ => (200, some (_prune_old_files now pruneAfter events))

/-! ### Rounding lemmas -/

lemma roundHalfEven_le (x : ℚ) : (roundHalfEven x : ℚ) ≤ x + 1 / 2 := by
  have h1 : ((⌊x⌋ : ℤ) : ℚ) ≤ x := Int.floor_le x
  have h2 : x < (⌊x⌋ : ℚ) + 1 := Int.lt_floor_add_one x
  unfold roundHalfEven
  split_ifs with ha hb hc
  · linarith
  · push_cast
    linarith
  · linarith
  · push_cast
    have heq : x - (⌊x⌋ : ℚ) = 1 / 2 := le_antisymm (not_lt.mp hb) (not_lt.mp ha)
    linarith

lemma le_roundHalfEven (x : ℚ) : x - 1 / 2 ≤ (roundHalfEven x : ℚ) := by
  have h1 : ((⌊x⌋ : ℤ) : ℚ) ≤ x := Int.floor_le x
  have h2 : x < (⌊x⌋ : ℚ) + 1 := Int.lt_floor_add_one x
  unfold roundHalfEven
  split_ifs with ha hb hc
  · linarith
  · push_cast
    linarith
  · have heq : x - (⌊x⌋ : ℚ) = 1 / 2 := le_antisymm (not_lt.mp hb) (not_lt.mp ha)
    linarith
  · push_cast
    linarith

lemma roundHalfEven_le_int (x : ℚ) (m : ℤ) (h : x ≤ (m : ℚ)) : roundHalfEven x ≤ m := by
  have h1 := roundHalfEven_le x
  have h2 : (roundHalfEven x : ℚ) < (m : ℚ) + 1 := by linarith
  have h3 : roundHalfEven x < m + 1 := by exact_mod_cast h2
  omega

lemma int_le_roundHalfEven (m : ℤ) (x : ℚ) (h : (m : ℚ) ≤ x) : m ≤ roundHalfEven x := by
  have h1 := le_roundHalfEven x
  have h2 : (m : ℚ) - 1 < (roundHalfEven x : ℚ) := by linarith
  have h3 : m - 1 < roundHalfEven x := by exact_mod_cast h2
  omega

lemma roundHalfEven_intCast (n : ℤ) : roundHalfEven (n : ℚ) = n := by
  unfold roundHalfEven
  rw [Int.floor_intCast]
  norm_num

/-! ### Scale-step lemmas -/

lemma one_le_scaleAfterMin (minW : ℤ) (w : ℚ) : 1 ≤ scaleAfterMin minW w := by
  unfold scaleAfterMin
  split_ifs
  · exact le_max_left _ _
  · exact le_refl 1

lemma scaleAfterMin_pos (minW : ℤ) (w : ℚ) : 0 < scaleAfterMin minW w :=
  lt_of_lt_of_le one_pos (one_le_scaleAfterMin minW w)

lemma mul_scaleAfterMaxW_le (minW maxW : ℤ) (hW : 1 ≤ maxW) (w : ℚ) :
    w * scaleAfterMaxW minW maxW w ≤ (maxW : ℚ) := by
  have hWq : (1 : ℚ) ≤ (maxW : ℚ) := by exact_mod_cast hW
  unfold scaleAfterMaxW
  split_ifs with hgt
  · have hw : 0 < w := by
      by_contra hcon
      push_neg at hcon
      have h1 : 0 < scaleAfterMin minW w := scaleAfterMin_pos minW w
      nlinarith
    have hc : (maxW : ℚ) / w * w = (maxW : ℚ) := div_mul_cancel₀ _ (ne_of_gt hw)
    rw [mul_comm]
    exact le_of_eq hc
  · exact not_lt.mp hgt

lemma scaleAfterMaxW_pos (minW maxW : ℤ) (hW : 1 ≤ maxW) (w : ℚ) :
    0 < scaleAfterMaxW minW maxW w := by
  have hWq : (0 : ℚ) < (maxW : ℚ) := by
    exact_mod_cast lt_of_lt_of_le Int.zero_lt_one hW
  unfold scaleAfterMaxW
  split_ifs with hgt
  · have hw : 0 < w := by
      by_contra hcon
      push_neg at hcon
      have h1 : 0 < scaleAfterMin minW w := scaleAfterMin_pos minW w
      nlinarith
    exact div_pos hWq hw
  · exact scaleAfterMin_pos minW w

lemma mul_scaleAfterMaxH_le_maxH (minW maxW maxH : ℤ) (hW : 1 ≤ maxW) (hH : 1 ≤ maxH)
    (w h : ℚ) : h * scaleAfterMaxH minW maxW maxH w h ≤ (maxH : ℚ) := by
  have hHq : (1 : ℚ) ≤ (maxH : ℚ) := by exact_mod_cast hH
  unfold scaleAfterMaxH
  split_ifs with hgt
  · have hs2 : 0 < scaleAfterMaxW minW maxW w := scaleAfterMaxW_pos minW maxW hW w
    have hh : 0 < h := by
      by_contra hcon
      push_neg at hcon
      nlinarith
    have hc : (maxH : ℚ) / h * h = (maxH : ℚ) := div_mul_cancel₀ _ (ne_of_gt hh)
    rw [mul_comm]
    exact le_of_eq hc
  · exact not_lt.mp hgt

lemma mul_scaleAfterMaxH_le_maxW (minW maxW maxH : ℤ) (hW : 1 ≤ maxW) (hH : 1 ≤ maxH)
    (w h : ℚ) : w * scaleAfterMaxH minW maxW maxH w h ≤ (maxW : ℚ) := by
  have hWq : (1 : ℚ) ≤ (maxW : ℚ) := by exact_mod_cast hW
  have hHq : (1 : ℚ) ≤ (maxH : ℚ) := by exact_mod_cast hH
  unfold scaleAfterMaxH
  split_ifs with hgt
  · have hs2 : 0 < scaleAfterMaxW minW maxW w := scaleAfterMaxW_pos minW maxW hW w
    have hh : 0 < h := by
      by_contra hcon
      push_neg at hcon
      nlinarith
    have hdivpos : 0 < (maxH : ℚ) / h := div_pos (by linarith) hh
    rcases le_or_lt w 0 with hw | hw
    · have hnp : w * ((maxH : ℚ) / h) ≤ 0 :=
        mul_nonpos_of_nonpos_of_nonneg hw (le_of_lt hdivpos)
      linarith
    · have hle : (maxH : ℚ) / h ≤ scaleAfterMaxW minW maxW w := by
        rw [div_le_iff₀ hh]
        nlinarith
      have hstep := mul_le_mul_of_nonneg_left hle (le_of_lt hw)
      exact hstep.trans (mul_scaleAfterMaxW_le minW maxW hW w)
  · exact mul_scaleAfterMaxW_le minW maxW hW w

/-- Unfolding `_compute_scale` to its two components. -/
lemma compute_scale_def (minW maxW maxH : ℤ) (width height : ℚ) :
    _compute_scale minW maxW maxH width height =
      (max 1 (roundHalfEven ((if width ≤ 0 ∨ height ≤ 0 then (minW : ℚ) else width) *
          scaleAfterMaxH minW maxW maxH
            (if width ≤ 0 ∨ height ≤ 0 then (minW : ℚ) else width)
            (if width ≤ 0 ∨ height ≤ 0 then (minW : ℚ) else height))),
       max 1 (roundHalfEven ((if width ≤ 0 ∨ height ≤ 0 then (minW : ℚ) else height) *
          scaleAfterMaxH minW maxW maxH
            (if width ≤ 0 ∨ height ≤ 0 then (minW : ℚ) else width)
            (if width ≤ 0 ∨ height ≤ 0 then (minW : ℚ) else height)))) := rfl

/-- Claim C1: for every intrinsic size (width, height) and every valid
bounds configuration, the target size returned by `_compute_scale`
satisfies target width ≤ `max_output_width` and target height ≤
`max_output_height`, always — including the degenerate path taken when
width ≤ 0 or height ≤ 0. -/
theorem compute_scale_within_max_bounds (minW maxW maxH : ℤ) (hW : 1 ≤ maxW) (hH : 1 ≤ maxH)
    (width height : ℚ) :
    (_compute_scale minW maxW maxH width height).1 ≤ maxW ∧
    (_compute_scale minW maxW maxH width height).2 ≤ maxH := by
  rw [compute_scale_def]
  constructor
  · exact max_le hW (roundHalfEven_le_int _ _ (mul_scaleAfterMaxH_le_maxW minW maxW maxH hW hH _ _))
  · exact max_le hH (roundHalfEven_le_int _ _ (mul_scaleAfterMaxH_le_maxH minW maxW maxH hW hH _ _))

/-- Witness for C1 at the default bounds (512, 4096, 4096) and intrinsic
size (100, 50). -/
theorem compute_scale_within_max_bounds_witness :
    (_compute_scale 512 4096 4096 100 50).1 ≤ 4096 ∧
    (_compute_scale 512 4096 4096 100 50).2 ≤ 4096 :=
  compute_scale_within_max_bounds 512 4096 4096 (by decide) (by decide) 100 50

/-- Claim C2: for every pair (width, height) with width ≤ 0 and
height ≤ 0, `_compute_scale` outputs exactly the square
(`min_output_width`, `min_output_width`), and the scale applied to the
substituted fallback canvas is exactly 1. -/
theorem compute_scale_degenerate_square (minW maxW maxH : ℤ) (hmin : 1 ≤ minW)
    (hWle : minW ≤ maxW) (hHle : minW ≤ maxH) (width height : ℚ)
    (hw : width ≤ 0) (_hh : height ≤ 0) :
    _compute_scale minW maxW maxH width height = (minW, minW) ∧
    scaleAfterMaxH minW maxW maxH (minW : ℚ) (minW : ℚ) = 1 := by
  have hdeg : width ≤ 0 ∨ height ≤ 0 := Or.inl hw
  have hs1 : scaleAfterMin minW (minW : ℚ) = 1 := by
    unfold scaleAfterMin
    rw [if_neg (lt_irrefl _)]
  have hs2 : scaleAfterMaxW minW maxW (minW : ℚ) = 1 := by
    unfold scaleAfterMaxW
    rw [hs1, mul_one, if_neg (not_lt.mpr (by exact_mod_cast hWle))]
  have hs3 : scaleAfterMaxH minW maxW maxH (minW : ℚ) (minW : ℚ) = 1 := by
    unfold scaleAfterMaxH
    rw [hs2, mul_one, if_neg (not_lt.mpr (by exact_mod_cast hHle))]
  refine ⟨?_, hs3⟩
  rw [compute_scale_def]
  simp only [if_pos hdeg]
  rw [hs3, mul_one, roundHalfEven_intCast, max_eq_right hmin]

/-- Witness for C2 at the default bounds and intrinsic size (0, -3). -/
theorem compute_scale_degenerate_square_witness :
    _compute_scale 512 4096 4096 0 (-3) = (512, 512) ∧
    scaleAfterMaxH 512 4096 4096 (512 : ℚ) (512 : ℚ) = 1 :=
  compute_scale_degenerate_square 512 4096 4096 (by decide) (by decide) (by decide)
    0 (-3) (by norm_num) (by norm_num)

/-- Claim C3: for positive intrinsic sizes, if neither the max-width
check nor the max-height check lowers the scale, the final target width
is at least `min_output_width`. -/
theorem compute_scale_min_width_when_unbound (minW maxW maxH : ℤ) (width height : ℚ)
    (hw : 0 < width) (hh : 0 < height)
    (hmaxw : ¬ (width * scaleAfterMin minW width > (maxW : ℚ)))
    (hmaxh : ¬ (height * scaleAfterMaxW minW maxW width > (maxH : ℚ))) :
    minW ≤ (_compute_scale minW maxW maxH width height).1 := by
  have hdeg : ¬ (width ≤ 0 ∨ height ≤ 0) := by
    push_neg
    exact ⟨hw, hh⟩
  have hs2 : scaleAfterMaxW minW maxW width = scaleAfterMin minW width := by
    unfold scaleAfterMaxW
    rw [if_neg hmaxw]
  have hs3 : scaleAfterMaxH minW maxW maxH width height = scaleAfterMin minW width := by
    unfold scaleAfterMaxH
    rw [if_neg hmaxh, hs2]
  have hmin : (minW : ℚ) ≤ width * scaleAfterMin minW width := by
    unfold scaleAfterMin
    split_ifs with hlt
    · have h1 : (minW : ℚ) / width ≤ max 1 ((minW : ℚ) / width) := le_max_right _ _
      have h2 : width * ((minW : ℚ) / width) = (minW : ℚ) := by
        rw [mul_comm]
        exact div_mul_cancel₀ _ (ne_of_gt hw)
      have h3 := mul_le_mul_of_nonneg_left h1 (le_of_lt hw)
      rw [h2] at h3
      exact h3
    · push_neg at hlt
      rw [mul_one]
      exact hlt
  rw [compute_scale_def]
  rw [if_neg hdeg, if_neg hdeg, hs3]
  exact le_trans (int_le_roundHalfEven minW _ hmin) (le_max_right _ _)

/-- Witness for C3 at the default bounds and intrinsic size (100, 50):
no max constraint binds, and the resolved width is at least 512. -/
theorem compute_scale_min_width_when_unbound_witness :
    512 ≤ (_compute_scale 512 4096 4096 100 50).1 :=
  compute_scale_min_width_when_unbound 512 4096 4096 100 50 (by norm_num) (by norm_num)
    (by with_unfolding_all decide) (by with_unfolding_all decide)

lemma checkedAfterMin_eq (minW : ℤ) (w : ℚ) (hw : 0 < w) :
    checkedAfterMin minW w = some (scaleAfterMin minW w) := by
  unfold checkedAfterMin scaleAfterMin
  by_cases h1 : w < (minW : ℚ)
  · rw [if_pos h1, if_pos h1, if_pos hw]
  · rw [if_neg h1, if_neg h1]

lemma checkedAfterMaxW_eq (minW maxW : ℤ) (w : ℚ) (hw : 0 < w) :
    checkedAfterMaxW minW maxW w = some (scaleAfterMaxW minW maxW w) := by
  unfold checkedAfterMaxW scaleAfterMaxW
  rw [checkedAfterMin_eq minW w hw]
  dsimp only
  by_cases h1 : w * scaleAfterMin minW w > (maxW : ℚ)
  · rw [if_pos h1, if_pos h1, if_pos hw]
  · rw [if_neg h1, if_neg h1]

lemma checkedAfterMaxH_eq (minW maxW maxH : ℤ) (w h : ℚ) (hw : 0 < w) (hh : 0 < h) :
    checkedAfterMaxH minW maxW maxH w h = some (scaleAfterMaxH minW maxW maxH w h) := by
  unfold checkedAfterMaxH scaleAfterMaxH
  rw [checkedAfterMaxW_eq minW maxW w hw]
  dsimp only
  by_cases h1 : h * scaleAfterMaxW minW maxW w > (maxH : ℚ)
  · rw [if_pos h1, if_pos h1, if_pos hh]
  · rw [if_neg h1, if_neg h1]

/-- Unfolding `computeScaleChecked` to its step chain. -/
lemma computeScaleChecked_def (minW maxW maxH : ℤ) (width height : ℚ) :
    computeScaleChecked minW maxW maxH width height =
      (match checkedAfterMaxH minW maxW maxH
          (if width ≤ 0 ∨ height ≤ 0 then (minW : ℚ) else width)
          (if width ≤ 0 ∨ height ≤ 0 then (minW : ℚ) else height) with
      | none => none
      | some s3 =>
        some (max 1 (roundHalfEven
                ((if width ≤ 0 ∨ height ≤ 0 then (minW : ℚ) else width) * s3)),
          max 1 (roundHalfEven
                ((if width ≤ 0 ∨ height ≤ 0 then (minW : ℚ) else height) * s3)))) := rfl

/-- Claim C10: when `min_output_width` is positive, every division in
`_compute_scale` executes with a strictly positive divisor (the guarded
variant returns `some`), and both returned components are at least 1. -/
theorem compute_scale_division_safe (minW maxW maxH : ℤ) (hmin : 0 < minW)
    (width height : ℚ) :
    computeScaleChecked minW maxW maxH width height =
      some (_compute_scale minW maxW maxH width height) ∧
    1 ≤ (_compute_scale minW maxW maxH width height).1 ∧
    1 ≤ (_compute_scale minW maxW maxH width height).2 := by
  have hw : 0 < (if width ≤ 0 ∨ height ≤ 0 then (minW : ℚ) else width) := by
    split_ifs with hd
    · exact_mod_cast hmin
    · push_neg at hd
      exact hd.1
  have hh : 0 < (if width ≤ 0 ∨ height ≤ 0 then (minW : ℚ) else height) := by
    split_ifs with hd
    · exact_mod_cast hmin
    · push_neg at hd
      exact hd.2
  refine ⟨?_, ?_, ?_⟩
  · rw [computeScaleChecked_def, checkedAfterMaxH_eq minW maxW maxH _ _ hw hh,
      compute_scale_def]
  · rw [compute_scale_def]
    exact le_max_left _ _
  · rw [compute_scale_def]
    exact le_max_left _ _

/-- Witness for C10 at the default bounds and intrinsic size (-1, 7). -/
theorem compute_scale_division_safe_witness :
    computeScaleChecked 512 4096 4096 (-1) 7 =
      some (_compute_scale 512 4096 4096 (-1) 7) ∧
    1 ≤ (_compute_scale 512 4096 4096 (-1) 7).1 ∧
    1 ≤ (_compute_scale 512 4096 4096 (-1) 7).2 :=
  compute_scale_division_safe 512 4096 4096 (by decide) (-1) 7

/-! ### Length-parser lemmas -/

/-- `_parse_svg_length` as a case split over the regex match. -/
lemma parse_svg_length_cases (s : String) :
    _parse_svg_length (some s) =
      (match lengthMatch s.data with
      | none => 0
      | some t =>
        if (pyLower (pyStrip t.rest)).getLast? = some '%' then 0
        else
          match _SVG_UNIT_TO_PX (pyLower (pyStrip t.rest)) with
          | some factor => floatOfToken t * factor
          | none => floatOfToken t) := by
  unfold _parse_svg_length
  dsimp only
  by_cases hs : s.data = []
  · simp only [if_pos hs, hs]
    rfl
  · rw [if_neg hs]

lemma parse_eq_zero_of_percent (s : String) (h : (svgUnitOf s).getLast? = some '%') :
    _parse_svg_length (some s) = 0 := by
  rw [parse_svg_length_cases]
  unfold svgUnitOf at h
  cases hm : lengthMatch s.data with
  | none => rfl
  | some t =>
    simp only [hm] at h ⊢
    rw [if_pos h]

lemma parse_eq_value_of_unknown_unit (s : String)
    (hu : _SVG_UNIT_TO_PX (svgUnitOf s) = none)
    (hp : (svgUnitOf s).getLast? ≠ some '%') :
    _parse_svg_length (some s) = lengthValueOf s := by
  rw [parse_svg_length_cases]
  unfold svgUnitOf at hu hp
  unfold lengthValueOf
  cases hm : lengthMatch s.data with
  | none => rfl
  | some t =>
    simp only [hm] at hu hp ⊢
    rw [if_neg hp, hu]

/-- Claim C4: `_parse_svg_length` implements the fixed unit table exactly
and preserves the percentage/unrecognized-unit asymmetry: "10pt" is
10·96/72, "5cm" is 5·96/2.54, px/empty are factor 1, pc is 16, mm is
96/25.4, in is 96; every value whose unit ends in a percent sign yields
0, and every value with any other unit absent from the table passes the
matched number through unscaled. -/
theorem parse_svg_length_unit_table :
    _parse_svg_length (some "10pt") = 10 * ((96 : ℚ) / 72) ∧
    _parse_svg_length (some "5cm") = 5 * ((96 : ℚ) / (254 / 100)) ∧
    _parse_svg_length (some "10px") = 10 ∧
    _parse_svg_length (some "10") = 10 ∧
    _parse_svg_length (some "10pc") = 10 * 16 ∧
    _parse_svg_length (some "10mm") = 10 * ((96 : ℚ) / (254 / 10)) ∧
    _parse_svg_length (some "10in") = 10 * 96 ∧
    _parse_svg_length (some "50%") = 0 ∧
    _parse_svg_length (some "10foo") = 10 ∧
    (∀ s : String, (svgUnitOf s).getLast? = some '%' → _parse_svg_length (some s) = 0) ∧
    (∀ s : String, _SVG_UNIT_TO_PX (svgUnitOf s) = none →
      (svgUnitOf s).getLast? ≠ some '%' → _parse_svg_length (some s) = lengthValueOf s) := by
  refine ⟨?_, ?_, ?_, ?_, ?_, ?_, ?_, ?_, ?_, parse_eq_zero_of_percent,
    parse_eq_value_of_unknown_unit⟩
  · have hm : lengthMatch "10pt".data = some ⟨false, 10, 0, 0, ['p', 't']⟩ := by decide
    have hu : pyLower (pyStrip ['p', 't']) = ['p', 't'] := by decide
    simp [_parse_svg_length, hm, hu, _SVG_UNIT_TO_PX, floatOfToken]
  · have hm : lengthMatch "5cm".data = some ⟨false, 5, 0, 0, ['c', 'm']⟩ := by decide
    have hu : pyLower (pyStrip ['c', 'm']) = ['c', 'm'] := by decide
    simp [_parse_svg_length, hm, hu, _SVG_UNIT_TO_PX, floatOfToken]
  · have hm : lengthMatch "10px".data = some ⟨false, 10, 0, 0, ['p', 'x']⟩ := by decide
    have hu : pyLower (pyStrip ['p', 'x']) = ['p', 'x'] := by decide
    simp [_parse_svg_length, hm, hu, _SVG_UNIT_TO_PX, floatOfToken]
  · have hm : lengthMatch "10".data = some ⟨false, 10, 0, 0, []⟩ := by decide
    have hu : pyLower (pyStrip ([] : List Char)) = [] := by decide
    simp [_parse_svg_length, hm, hu, _SVG_UNIT_TO_PX, floatOfToken]
  · have hm : lengthMatch "10pc".data = some ⟨false, 10, 0, 0, ['p', 'c']⟩ := by decide
    have hu : pyLower (pyStrip ['p', 'c']) = ['p', 'c'] := by decide
    simp [_parse_svg_length, hm, hu, _SVG_UNIT_TO_PX, floatOfToken]
  · have hm : lengthMatch "10mm".data = some ⟨false, 10, 0, 0, ['m', 'm']⟩ := by decide
    have hu : pyLower (pyStrip ['m', 'm']) = ['m', 'm'] := by decide
    simp [_parse_svg_length, hm, hu, _SVG_UNIT_TO_PX, floatOfToken]
  · have hm : lengthMatch "10in".data = some ⟨false, 10, 0, 0, ['i', 'n']⟩ := by decide
    have hu : pyLower (pyStrip ['i', 'n']) = ['i', 'n'] := by decide
    simp [_parse_svg_length, hm, hu, _SVG_UNIT_TO_PX, floatOfToken]
  · have hm : lengthMatch "50%".data = some ⟨false, 50, 0, 0, ['%']⟩ := by decide
    have hu : pyLower (pyStrip ['%']) = ['%'] := by decide
    simp [_parse_svg_length, hm, hu]
  · have hm : lengthMatch "10foo".data = some ⟨false, 10, 0, 0, ['f', 'o', 'o']⟩ := by decide
    have hu : pyLower (pyStrip ['f', 'o', 'o']) = ['f', 'o', 'o'] := by decide
    simp [_parse_svg_length, hm, hu, _SVG_UNIT_TO_PX, floatOfToken]

/-- Witness for the universally quantified parts of C4: a percent-suffixed
unit ("7q%") and an unrecognized unit ("3.5quux"). -/
theorem parse_svg_length_unit_table_witness :
    _parse_svg_length (some "7q%") = 0 ∧
    _parse_svg_length (some "3.5quux") = lengthValueOf "3.5quux" :=
  ⟨parse_svg_length_unit_table.2.2.2.2.2.2.2.2.2.1 "7q%" (by decide),
   parse_svg_length_unit_table.2.2.2.2.2.2.2.2.2.2 "3.5quux" (by decide) (by decide)⟩

/-! ### Dimension-resolver theorems -/

/-- Claim C5: positive width/height attributes are used directly and the
bounding box is ignored even when present; absent attributes with
bounding box "0 0 200 100" give (200, 100); a bounding box that does not
split into exactly four tokens is ignored entirely, so with absent
attributes and a 3-token bounding box the result is (0, 0). -/
theorem extract_svg_dimensions_resolution :
    (∀ d : SvgDoc, 0 < _parse_svg_length d.width → 0 < _parse_svg_length d.height →
      _extract_svg_dimensions d = (_parse_svg_length d.width, _parse_svg_length d.height)) ∧
    _extract_svg_dimensions ⟨none, none, some "0 0 200 100"⟩ = (200, 100) ∧
    (∀ vb : String, (splitTokens (pyStrip vb.data)).length ≠ 4 →
      _extract_svg_dimensions ⟨none, none, some vb⟩ = (0, 0)) ∧
    _extract_svg_dimensions ⟨none, none, some "0 0 200"⟩ = (0, 0) := by
  refine ⟨?_, ?_, ?_, ?_⟩
  · intro d hw hh
    unfold _extract_svg_dimensions
    cases hv : d.viewBox with
    | none => rfl
    | some vb =>
      dsimp only
      by_cases he : vb.data = []
      · rw [if_pos he]
      · rw [if_neg he]
        split
        · rw [if_neg (not_le.mpr hw), if_neg (not_le.mpr hh)]
        · rfl
  · have hw0 : _parse_svg_length (none : Option String) = 0 := rfl
    have hsp : splitTokens (pyStrip "0 0 200 100".data) =
        [['0'], ['0'], ['2', '0', '0'], ['1', '0', '0']] := by decide
    have h200 : _parse_svg_length (some (String.mk ['2', '0', '0'])) = 200 := by
      have hm : lengthMatch (String.mk ['2', '0', '0']).data =
          some ⟨false, 200, 0, 0, []⟩ := by decide
      have hu : pyLower (pyStrip ([] : List Char)) = [] := by decide
      simp [_parse_svg_length, hm, hu, _SVG_UNIT_TO_PX, floatOfToken]
    have h100 : _parse_svg_length (some (String.mk ['1', '0', '0'])) = 100 := by
      have hm : lengthMatch (String.mk ['1', '0', '0']).data =
          some ⟨false, 100, 0, 0, []⟩ := by decide
      have hu : pyLower (pyStrip ([] : List Char)) = [] := by decide
      simp [_parse_svg_length, hm, hu, _SVG_UNIT_TO_PX, floatOfToken]
    simp [_extract_svg_dimensions, hw0, hsp, h200, h100]
  · intro vb hlen
    unfold _extract_svg_dimensions
    dsimp only
    by_cases he : vb.data = []
    · rw [if_pos he]
      rfl
    · rw [if_neg he]
      split
      · rename_i a b vw vh heq
        rw [heq] at hlen
        simp at hlen
      · rfl
  · have hw0 : _parse_svg_length (none : Option String) = 0 := rfl
    have hsp : splitTokens (pyStrip "0 0 200".data) = [['0'], ['0'], ['2', '0', '0']] := by
      decide
    simp [_extract_svg_dimensions, hsp, hw0]

/-- Witness for the universally quantified parts of C5: explicit positive
attributes win over a present bounding box, and a 3-token bounding box
with absent attributes yields (0, 0). -/
theorem extract_svg_dimensions_resolution_witness :
    _extract_svg_dimensions ⟨some "10", some "20", some "0 0 7 9"⟩ =
      (_parse_svg_length (some "10"), _parse_svg_length (some "20")) ∧
    _extract_svg_dimensions ⟨none, none, some "1 2 3"⟩ = (0, 0) := by
  constructor
  · apply extract_svg_dimensions_resolution.1 ⟨some "10", some "20", some "0 0 7 9"⟩
    · have hm : lengthMatch "10".data = some ⟨false, 10, 0, 0, []⟩ := by decide
      have hu : pyLower (pyStrip ([] : List Char)) = [] := by decide
      simp [_parse_svg_length, hm, hu, _SVG_UNIT_TO_PX, floatOfToken]
    · have hm : lengthMatch "20".data = some ⟨false, 20, 0, 0, []⟩ := by decide
      have hu : pyLower (pyStrip ([] : List Char)) = [] := by decide
      simp [_parse_svg_length, hm, hu, _SVG_UNIT_TO_PX, floatOfToken]
  · apply extract_svg_dimensions_resolution.2.2.1 "1 2 3"
    decide

/-! ### Non-negativity of parsed lengths -/

/-- Counterexample to C9 as stated: the regex `[-+]?` accepts a leading
minus sign, so the width attribute "-5" parses to the negative length -5
and flows into the resolved intrinsic size. -/
theorem parse_svg_length_negative_counterexample :
    _parse_svg_length (some "-5") < 0 ∧
    (_extract_svg_dimensions ⟨some "-5", some "3", none⟩).1 < 0 := by
  have h5 : _parse_svg_length (some "-5") = -5 := by
    have hm : lengthMatch "-5".data = some ⟨true, 5, 0, 0, []⟩ := by decide
    have hu : pyLower (pyStrip ([] : List Char)) = [] := by decide
    simp [_parse_svg_length, hm, hu, _SVG_UNIT_TO_PX, floatOfToken]
  have hx : (_extract_svg_dimensions ⟨some "-5", some "3", none⟩).1 =
      _parse_svg_length (some "-5") := rfl
  rw [hx, h5]
  norm_num

lemma unit_factor_nonneg (u : List Char) (f : ℚ) (h : _SVG_UNIT_TO_PX u = some f) :
    0 ≤ f := by
  unfold _SVG_UNIT_TO_PX at h
  split_ifs at h
  all_goals first
    | exact Option.noConfusion h
    | (injection h with h2
       subst h2
       norm_num)

lemma floatOfToken_nonneg (t : LengthToken) (h : t.neg = false) : 0 ≤ floatOfToken t := by
  unfold floatOfToken
  rw [h]
  simp only [Bool.false_eq_true, if_false]
  have h1 : (0 : ℚ) ≤ (t.intPart : ℚ) := Nat.cast_nonneg _
  have h2 : (0 : ℚ) ≤ (t.fracPart : ℚ) / (10 : ℚ) ^ t.fracLen :=
    div_nonneg (Nat.cast_nonneg _) (by positivity)
  linarith

lemma parse_svg_length_nonneg (s : String) (h : 0 ≤ lengthValueOf s) :
    0 ≤ _parse_svg_length (some s) := by
  rw [parse_svg_length_cases]
  unfold lengthValueOf at h
  cases hm : lengthMatch s.data with
  | none => exact le_refl 0
  | some t =>
    rw [hm] at h
    dsimp only
    by_cases hp : (pyLower (pyStrip t.rest)).getLast? = some '%'
    · rw [if_pos hp]
    · rw [if_neg hp]
      cases hu : _SVG_UNIT_TO_PX (pyLower (pyStrip t.rest)) with
      | none => exact h
      | some f => exact mul_nonneg h (unit_factor_nonneg _ f hu)

/-- Claim C9 (amended): components of the resolved intrinsic size are
non-negative whenever the numeric tokens matched from the attributes
involved are non-negative; the parser accepts a leading minus sign, and
only then can a negative component arise (0 stays the sentinel for
"unspecified"). -/
theorem parse_extract_nonneg :
    (∀ s : String, 0 ≤ lengthValueOf s → 0 ≤ _parse_svg_length (some s)) ∧
    (∀ d : SvgDoc,
      (∀ s : String, d.width = some s → 0 ≤ lengthValueOf s) →
      (∀ s : String, d.height = some s → 0 ≤ lengthValueOf s) →
      (∀ c ∈ splitTokens (pyStrip (d.viewBox.getD "").data),
        0 ≤ lengthValueOf (String.mk c)) →
      0 ≤ (_extract_svg_dimensions d).1 ∧ 0 ≤ (_extract_svg_dimensions d).2) := by
  refine ⟨parse_svg_length_nonneg, ?_⟩
  intro d hwa hha hvba
  have pw : 0 ≤ _parse_svg_length d.width := by
    cases hx : d.width with
    | none => exact le_refl 0
    | some s => exact parse_svg_length_nonneg s (hwa s hx)
  have ph : 0 ≤ _parse_svg_length d.height := by
    cases hx : d.height with
    | none => exact le_refl 0
    | some s => exact parse_svg_length_nonneg s (hha s hx)
  unfold _extract_svg_dimensions
  cases hv : d.viewBox with
  | none => exact ⟨pw, ph⟩
  | some vb =>
    rw [hv] at hvba
    dsimp only [Option.getD] at hvba
    dsimp only
    by_cases he : vb.data = []
    · rw [if_pos he]
      exact ⟨pw, ph⟩
    · rw [if_neg he]
      split
      · rename_i a b vw vh heq
        constructor
        · by_cases hwle : _parse_svg_length d.width ≤ 0
          · rw [if_pos hwle]
            exact parse_svg_length_nonneg _ (hvba vw (by rw [heq]; simp))
          · rw [if_neg hwle]
            exact pw
        · by_cases hhle : _parse_svg_length d.height ≤ 0
          · rw [if_pos hhle]
            exact parse_svg_length_nonneg _ (hvba vh (by rw [heq]; simp))
          · rw [if_neg hhle]
            exact ph
      · exact ⟨pw, ph⟩

/-- Witness for C9 (amended) at a concrete document. -/
theorem parse_extract_nonneg_witness :
    0 ≤ _parse_svg_length (some "42km") ∧
    0 ≤ (_extract_svg_dimensions ⟨some "8", none, some "0 0 6 7"⟩).1 ∧
    0 ≤ (_extract_svg_dimensions ⟨some "8", none, some "0 0 6 7"⟩).2 := by
  refine ⟨parse_extract_nonneg.1 "42km" (by with_unfolding_all decide),
    parse_extract_nonneg.2 ⟨some "8", none, some "0 0 6 7"⟩ ?_ ?_ ?_⟩
  · intro s hs
    injection hs with hs2
    subst hs2
    with_unfolding_all decide
  · intro s hs
    exact Option.noConfusion hs
  · intro c hc
    have hsp : splitTokens (pyStrip ((some "0 0 6 7").getD "").data) =
        [['0'], ['0'], ['6'], ['7']] := by decide
    rw [hsp] at hc
    simp only [List.mem_cons, List.not_mem_nil, or_false] at hc
    rcases hc with hc | hc | hc | hc
    all_goals subst hc
    all_goals with_unfolding_all decide

/-! ### Bounded-fetcher theorems -/

lemma streamChunks_ok_length (maxBytes : ℕ) (chunks : List (List ℕ)) :
    ∀ (buffer out : List ℕ), buffer.length ≤ maxBytes →
      streamChunks maxBytes chunks buffer = Except.ok out → out.length ≤ maxBytes := by
  induction chunks with
  | nil =>
    intro buffer out hb h
    unfold streamChunks at h
    injection h with h2
    subst h2
    exact hb
  | cons c rest ih =>
    intro buffer out hb h
    unfold streamChunks at h
    by_cases hc : c = []
    · rw [if_pos hc] at h
      exact ih buffer out hb h
    · rw [if_neg hc] at h
      dsimp only at h
      by_cases hl : (buffer ++ c).length > maxBytes
      · rw [if_pos hl] at h
        exact Except.noConfusion h
      · rw [if_neg hl] at h
        exact ih (buffer ++ c) out (not_lt.mp hl) h

lemma streamChunks_error_msg (maxBytes : ℕ) (chunks : List (List ℕ)) :
    ∀ (buffer : List ℕ) (e : Err), streamChunks maxBytes chunks buffer = Except.error e →
      e = Err.valueError "SVG exceeds maximum allowed size." := by
  induction chunks with
  | nil =>
    intro buffer e h
    exact Except.noConfusion h
  | cons c rest ih =>
    intro buffer e h
    unfold streamChunks at h
    by_cases hc : c = []
    · rw [if_pos hc] at h
      exact ih buffer e h
    · rw [if_neg hc] at h
      dsimp only at h
      by_cases hl : (buffer ++ c).length > maxBytes
      · rw [if_pos hl] at h
        injection h with h2
        exact h2.symm
      · rw [if_neg hl] at h
        exact ih (buffer ++ c) e h

lemma fetch_svg_error_is_valueError (maxBytes : ℕ) (inp : FetchInput) (e : Err)
    (h : _fetch_svg maxBytes inp = Except.error e) : ∃ m, e = Err.valueError m := by
  cases inp with
  | transportError msg =>
    unfold _fetch_svg at h
    injection h with h2
    exact ⟨_, h2.symm⟩
  | response status contentLength chunks =>
    unfold _fetch_svg at h
    dsimp only at h
    by_cases h1 : 400 ≤ status
    · rw [if_pos h1] at h
      injection h with h2
      exact ⟨_, h2.symm⟩
    · rw [if_neg h1] at h
      by_cases h2 : contentLengthExceeds maxBytes contentLength = true
      · rw [if_pos h2] at h
        injection h with h3
        exact ⟨_, h3.symm⟩
      · rw [if_neg h2] at h
        cases hst : streamChunks maxBytes chunks [] with
        | error e2 =>
          rw [hst] at h
          dsimp only at h
          injection h with h3
          exact ⟨_, ((streamChunks_error_msg maxBytes chunks [] e2 hst) ▸ h3).symm⟩
        | ok bytes =>
          rw [hst] at h
          dsimp only at h
          by_cases hstrip : bytesStrip bytes = []
          · rw [if_pos hstrip] at h
            injection h with h3
            exact ⟨_, h3.symm⟩
          · rw [if_neg hstrip] at h
            exact Except.noConfusion h

/-- Claim C6: `_fetch_svg` returns bytes only when they fit the byte
ceiling and are non-empty after trimming; every failure mode is a
`ValueError` (client-attributable), which the `/render` route maps to a
400 response, never a 500. -/
theorem fetch_svg_bounded_and_client_errors (maxBytes : ℕ) (inp : FetchInput) :
    (∀ bytes, _fetch_svg maxBytes inp = Except.ok bytes →
      bytes.length ≤ maxBytes ∧ bytesStrip bytes ≠ []) ∧
    (∀ e, _fetch_svg maxBytes inp = Except.error e →
      ∀ (now pruneAfter : ℤ) (events : List PruneEvent),
        render_svg true true (Except.error e) now pruneAfter events = (400, none)) := by
  constructor
  · intro bytes h
    cases inp with
    | transportError msg => exact Except.noConfusion h
    | response status contentLength chunks =>
      unfold _fetch_svg at h
      dsimp only at h
      by_cases h1 : 400 ≤ status
      · rw [if_pos h1] at h
        exact Except.noConfusion h
      · rw [if_neg h1] at h
        by_cases h2 : contentLengthExceeds maxBytes contentLength = true
        · rw [if_pos h2] at h
          exact Except.noConfusion h
        · rw [if_neg h2] at h
          cases hst : streamChunks maxBytes chunks [] with
          | error e2 =>
            rw [hst] at h
            dsimp only at h
            exact Except.noConfusion h
          | ok streamed =>
            rw [hst] at h
            dsimp only at h
            by_cases hstrip : bytesStrip streamed = []
            · rw [if_pos hstrip] at h
              exact Except.noConfusion h
            · rw [if_neg hstrip] at h
              injection h with h3
              subst h3
              exact ⟨streamChunks_ok_length maxBytes chunks [] _ (Nat.zero_le _) hst,
                hstrip⟩
  · intro e h now pruneAfter events
    obtain ⟨m, hm⟩ := fetch_svg_error_is_valueError maxBytes inp e h
    subst hm
    rfl

/-- Witness for C6: a small in-limit response is accepted whole, and a
transport error surfaces as a 400 from the route. -/
theorem fetch_svg_bounded_and_client_errors_witness :
    (([104, 105] : List ℕ).length ≤ 10 ∧ bytesStrip [104, 105] ≠ []) ∧
    render_svg true true
        (Except.error (Err.valueError ("Unable to download SVG: " ++ "boom")))
        0 0 [] = (400, none) :=
  ⟨(fetch_svg_bounded_and_client_errors 10
      (FetchInput.response 200 none [[104, 105]])).1 [104, 105] (by rfl),
   (fetch_svg_bounded_and_client_errors 10 (FetchInput.transportError "boom")).2
      (Err.valueError ("Unable to download SVG: " ++ "boom")) (by rfl) 0 0 []⟩

/-! ### Pruner theorems -/

lemma pruneLoop_fault_free (cutoff : ℤ) (blobs : List Blob) :
    ∀ d : ℕ, pruneLoop cutoff (blobs.map (fun b => PruneEvent.item b false)) d =
      d + (blobs.filter (shouldPrune cutoff)).length := by
  induction blobs with
  | nil =>
    intro d
    simp [pruneLoop]
  | cons b rest ih =>
    intro d
    simp only [List.map_cons]
    cases ht : b.timeCreated with
    | none =>
      have hs : shouldPrune cutoff b = false := by
        unfold shouldPrune
        rw [ht]
      unfold pruneLoop
      simp only [ht, List.filter_cons, hs]
      exact ih d
    | some t =>
      by_cases hlt : t < cutoff
      · have hs : shouldPrune cutoff b = true := by
          unfold shouldPrune
          rw [ht]
          exact decide_eq_true hlt
        unfold pruneLoop
        simp only [ht, if_pos hlt, if_neg (Bool.false_ne_true), List.filter_cons, hs,
          if_pos trivial]
        rw [ih (d + 1)]
        simp [Nat.add_comm, Nat.add_assoc, Nat.add_left_comm]
      · have hs : shouldPrune cutoff b = false := by
          unfold shouldPrune
          rw [ht]
          exact decide_eq_false hlt
        unfold pruneLoop
        simp only [ht, if_neg hlt, List.filter_cons, hs]
        exact ih d

lemma pruneLoop_stops_at (cutoff : ℤ) (ev : PruneEvent) (post : List PruneEvent)
    (hstop : ∀ d : ℕ, pruneLoop cutoff (ev :: post) d = d) :
    ∀ (pre : List PruneEvent) (d : ℕ),
      pruneLoop cutoff (pre ++ ev :: post) d = pruneLoop cutoff pre d := by
  intro pre
  induction pre with
  | nil =>
    intro d
    exact hstop d
  | cons e rest ih =>
    intro d
    cases e with
    | listFault m2 => rfl
    | item b df =>
      show pruneLoop cutoff (PruneEvent.item b df :: (rest ++ ev :: post)) d = _
      unfold pruneLoop
      cases ht : b.timeCreated with
      | none => exact ih d
      | some t =>
        dsimp only
        by_cases hlt : t < cutoff
        · rw [if_pos hlt, if_pos hlt]
          cases df with
          | true => rfl
          | false => exact ih (d + 1)
        · rw [if_neg hlt, if_neg hlt]
          exact ih d

/-- Claim C7: in one fault-free pruning pass, an object is deleted (and
counted) exactly when it has a known creation timestamp strictly earlier
than the cutoff `now - prune_after_seconds`: no timestamp means never
deleted, a timestamp equal to the cutoff is kept, and the count is the
number deleted in this pass alone. -/
theorem prune_old_files_policy (now pruneAfter : ℤ) (blobs : List Blob) :
    _prune_old_files now pruneAfter (blobs.map (fun b => PruneEvent.item b false)) =
      (blobs.filter (shouldPrune (now - pruneAfter))).length ∧
    (∀ b : Blob, b.timeCreated = none → shouldPrune (now - pruneAfter) b = false) ∧
    (∀ b : Blob, b.timeCreated = some (now - pruneAfter) →
      shouldPrune (now - pruneAfter) b = false) ∧
    (∀ b : Blob, shouldPrune (now - pruneAfter) b = true ↔
      ∃ t, b.timeCreated = some t ∧ t < now - pruneAfter) := by
  refine ⟨?_, ?_, ?_, ?_⟩
  · have h0 := pruneLoop_fault_free (now - pruneAfter) blobs 0
    rw [Nat.zero_add] at h0
    exact h0
  · intro b hb
    unfold shouldPrune
    rw [hb]
  · intro b hb
    unfold shouldPrune
    rw [hb]
    simp
  · intro b
    unfold shouldPrune
    cases hb : b.timeCreated with
    | none => simp
    | some t => simp

/-- Witness for C7: three blobs (no timestamp, old, exactly at cutoff);
only the old one is deleted. -/
theorem prune_old_files_policy_witness :
    _prune_old_files 10 5
        ([⟨"a", none⟩, ⟨"b", some 0⟩, ⟨"c", some (10 - 5)⟩].map
          (fun b => PruneEvent.item b false)) =
      ([(⟨"a", none⟩ : Blob), ⟨"b", some 0⟩, ⟨"c", some (10 - 5)⟩].filter
        (shouldPrune (10 - 5))).length ∧
    shouldPrune (10 - 5) ⟨"a", none⟩ = false ∧
    shouldPrune (10 - 5) ⟨"c", some (10 - 5)⟩ = false := by
  have h := prune_old_files_policy 10 5 [⟨"a", none⟩, ⟨"b", some 0⟩, ⟨"c", some (10 - 5)⟩]
  exact ⟨h.1, h.2.1 _ rfl, h.2.2.1 _ rfl⟩

/-- Claim C8: a fault during pruning (listing fault anywhere, or a
deletion fault on a prunable blob) stops the pass with the count
accumulated before the fault; an up-front listing fault yields 0; and a
successful render still responds 200 carrying that count. -/
theorem prune_fault_isolation (now pruneAfter : ℤ) (pre post evs : List PruneEvent)
    (m : String) (b : Blob) (dims : ℤ × ℤ)
    (hb : shouldPrune (now - pruneAfter) b = true) :
    _prune_old_files now pruneAfter (pre ++ PruneEvent.listFault m :: post) =
      _prune_old_files now pruneAfter pre ∧
    _prune_old_files now pruneAfter (pre ++ PruneEvent.item b true :: post) =
      _prune_old_files now pruneAfter pre ∧
    _prune_old_files now pruneAfter (PruneEvent.listFault m :: evs) = 0 ∧
    render_svg true true (Except.ok dims) now pruneAfter
        (pre ++ PruneEvent.listFault m :: post) =
      (200, some (_prune_old_files now pruneAfter pre)) := by
  have hstop2 : ∀ d : ℕ,
      pruneLoop (now - pruneAfter) (PruneEvent.item b true :: post) d = d := by
    intro d
    unfold shouldPrune at hb
    unfold pruneLoop
    cases ht : b.timeCreated with
    | none =>
      rw [ht] at hb
      exact Bool.noConfusion hb
    | some t =>
      rw [ht] at hb
      dsimp only
      rw [if_pos (of_decide_eq_true hb)]
      rfl
  have h1 : _prune_old_files now pruneAfter (pre ++ PruneEvent.listFault m :: post) =
      _prune_old_files now pruneAfter pre :=
    pruneLoop_stops_at (now - pruneAfter) (PruneEvent.listFault m) post (fun _ => rfl) pre 0
  have h2 : _prune_old_files now pruneAfter (pre ++ PruneEvent.item b true :: post) =
      _prune_old_files now pruneAfter pre :=
    pruneLoop_stops_at (now - pruneAfter) (PruneEvent.item b true) post hstop2 pre 0
  exact ⟨h1, h2, rfl, by rw [show render_svg true true (Except.ok dims) now pruneAfter
    (pre ++ PruneEvent.listFault m :: post) = (200, some (_prune_old_files now pruneAfter
    (pre ++ PruneEvent.listFault m :: post))) from rfl, h1]⟩

/-- Witness for C8: one deletion before the fault, events after the
fault never seen, and the route still answers 200 with count 1. -/
theorem prune_fault_isolation_witness :
    _prune_old_files 10 5
        ([PruneEvent.item ⟨"x", some 0⟩ false] ++
          PruneEvent.listFault "boom" :: [PruneEvent.item ⟨"y", some 0⟩ false]) =
      _prune_old_files 10 5 [PruneEvent.item ⟨"x", some 0⟩ false] ∧
    _prune_old_files 10 5
        ([PruneEvent.item ⟨"x", some 0⟩ false] ++
          PruneEvent.item ⟨"z", some 0⟩ true :: [PruneEvent.item ⟨"y", some 0⟩ false]) =
      _prune_old_files 10 5 [PruneEvent.item ⟨"x", some 0⟩ false] ∧
    _prune_old_files 10 5 (PruneEvent.listFault "boom" ::
        [PruneEvent.item ⟨"y", some 0⟩ false]) = 0 ∧
    render_svg true true (Except.ok (512, 256)) 10 5
        ([PruneEvent.item ⟨"x", some 0⟩ false] ++
          PruneEvent.listFault "boom" :: [PruneEvent.item ⟨"y", some 0⟩ false]) =
      (200, some (_prune_old_files 10 5 [PruneEvent.item ⟨"x", some 0⟩ false])) :=
  prune_fault_isolation 10 5 [PruneEvent.item ⟨"x", some 0⟩ false]
    [PruneEvent.item ⟨"y", some 0⟩ false] [PruneEvent.item ⟨"y", some 0⟩ false]
    "boom" ⟨"z", some 0⟩ (512, 256) (by decide)

end SvgRender
